import Mathlib

set_option maxRecDepth 10000

/-!
Verification model of the mini-soil-sensor firmware (src/boot.py, src/main.py).

Strings from the firmware are modelled as lists of characters (`Str`), the
persisted JSON configuration file as an optional record with one optional
field per JSON key, Python exceptions as an explicit error type threaded
through `Except`, and machine state effects (file contents, restarts, the
in-memory globals) as explicit fields of outcome records.  Each definition
carries a comment pointing to the source lines it models.
-/

abbrev Str := List Char

/-- Python errors that the modelled code paths can raise. -/
inductive PyErr
  | valueError
  | zeroDivisionError
deriving DecidableEq, Repr

deriving instance DecidableEq for Except

/-! ### Python string primitives used by main.py -/

/-- Python `needle in hay` substring test. -/
def containsSub (hay needle : Str) : Bool :=
  needle.isPrefixOf hay ||
    match hay with
    | [] => false
    | _ :: t => containsSub t needle

/-- Helper for `pyFindFrom`: first index of `c` in `l`, offset by `i`; `-1` if absent. -/
def pyFindFromAux (c : Char) (l : List Char) (i : Nat) : Int :=
  match l with
  | [] => -1
  | x :: t => if x = c then (i : Int) else pyFindFromAux c t (i + 1)

/-- Python `s.find(c, start)`: index of the first occurrence of `c` at or after
`start` (negative `start` counts from the end, clamped at 0), or `-1`. -/
def pyFindFrom (c : Char) (l : Str) (start : Int) : Int :=
  let n : Int := l.length
  let s0 : Int := if start < 0 then max 0 (n + start) else start
  pyFindFromAux c (l.drop s0.toNat) s0.toNat

/-- Python slice `l[a:b]` with negative-index wrap-around and clamping. -/
def pySlice (l : Str) (a b : Int) : Str :=
  let n : Int := l.length
  let lo : Int := if a < 0 then max 0 (n + a) else min a n
  let hi : Int := if b < 0 then max 0 (n + b) else min b n
  (l.take hi.toNat).drop lo.toNat

/-- Python `s.split(sep)` for a one-character separator: keeps empty pieces. -/
def splitOnC (sep : Char) : Str → List Str
  | [] => [[]]
  | c :: t =>
    if c = sep then [] :: splitOnC sep t
    else
      match splitOnC sep t with
      | [] => [[c]]
      | h :: r => (c :: h) :: r

/-- Python `param.split('=', 1)` restricted to the case used at main.py:378:
split at the first `'='`; `none` when there is no `'='` (main.py:380 skips those). -/
def splitEq1 (l : Str) : Option (Str × Str) :=
  let i := pyFindFrom '=' l 0
  if i < 0 then none else some (l.take i.toNat, l.drop (i.toNat + 1))

/-- Python truthiness of an optional string: `None` and `''` are falsy. -/
def truthy : Option Str → Bool
  | none => false
  | some s => !s.isEmpty

/-- Python `s.strip()`. -/
def trimWs (l : Str) : Str :=
  ((l.dropWhile Char.isWhitespace).reverse.dropWhile Char.isWhitespace).reverse

/-- Value of a decimal digit character. -/
def digitVal (c : Char) : Option Nat :=
  if '0' ≤ c ∧ c ≤ '9' then some (c.toNat - 48) else none

def decNatAux : List Char → Nat → Option Nat
  | [], acc => some acc
  | c :: t, acc =>
    match digitVal c with
    | some d => decNatAux t (acc * 10 + d)
    | none => none

/-- Nonempty all-decimal-digit string to a number. -/
def decNat (l : Str) : Option Nat :=
  match l with
  | [] => none
  | _ => decNatAux l 0

/-- Python `int(s)`: optional surrounding whitespace, optional sign, decimal
digits; `none` models the `ValueError` (caught at main.py:400 / main.py:434). -/
def pyInt (l : Str) : Option Int :=
  match trimWs l with
  | '+' :: t => (decNat t).map fun n => (n : Int)
  | '-' :: t => (decNat t).map fun n => -(n : Int)
  | t => (decNat t).map fun n => (n : Int)

/-- Value of a hexadecimal digit character. -/
def hexDigitVal (c : Char) : Option Nat :=
  if '0' ≤ c ∧ c ≤ '9' then some (c.toNat - 48)
  else if 'a' ≤ c ∧ c ≤ 'f' then some (c.toNat - 87)
  else if 'A' ≤ c ∧ c ≤ 'F' then some (c.toNat - 55)
  else none

def hexNatAux : List Char → Nat → Option Nat
  | [], acc => some acc
  | c :: t, acc =>
    match hexDigitVal c with
    | some d => hexNatAux t (acc * 16 + d)
    | none => none

/-- Nonempty all-hex-digit string to a number. -/
def hexNat (l : Str) : Option Nat :=
  match l with
  | [] => none
  | _ => hexNatAux l 0

/-- Python `int(s, 16)` on the two-character escape slices of main.py:190. -/
def pyIntHex (l : Str) : Option Int :=
  match trimWs l with
  | '+' :: t => (hexNat t).map fun n => (n : Int)
  | '-' :: t => (hexNat t).map fun n => -(n : Int)
  | t => (hexNat t).map fun n => (n : Int)

/-- Python `chr(n)`: `none` models the `ValueError` on out-of-range codepoints
(caught at main.py:192); Lean `Char` cannot carry surrogates, which are
unreachable here because only two hex digits (≤ 0xFF) ever feed this. -/
def pyChr (n : Int) : Option Char :=
  if 0 ≤ n ∧ (n.toNat < 55296 ∨ (57343 < n.toNat ∧ n.toNat < 1114112)) then
    some (Char.ofNat n.toNat)
  else none

/-- main.py:181-205 `url_decode`: `%XX` escapes become the coded character when
at least two characters follow the `%` and the escape parses (lenient pass
through of the `%` otherwise), `+` becomes a space. -/
def url_decode : Str → Str
  | '%' :: c1 :: c2 :: rest =>
    (match pyIntHex [c1, c2] with
     | some n =>
       match pyChr n with
       | some ch => ch :: url_decode rest
       | none => '%' :: url_decode (c1 :: c2 :: rest)
     | none => '%' :: url_decode (c1 :: c2 :: rest))
  | '%' :: rest => '%' :: url_decode rest
  | '+' :: rest => ' ' :: url_decode rest
  | c :: rest => c :: url_decode rest
  | [] => []

/-! ### The persisted configuration record and the config store -/

/-- The JSON object persisted in `config.json`.  Every field is optional: a
hand-edited or older file may miss keys, and each reader substitutes its own
default per key (boot.py:113-132, main.py:249-275). -/
structure StoredConfig where
  ssid : Option Str
  password : Option Str
  dry : Option Int
  wet : Option Int
  mqtt_broker : Option Str
  mqtt_port : Option Int
  mqtt_user : Option Str
  mqtt_pass : Option Str
  brightness : Option Int
  dht_enabled : Option Bool
  temp_unit_c : Option Bool
deriving DecidableEq, Repr

/-- The filesystem as seen through `config.json`: `none` is "file absent or
unparsable as JSON" (both readers treat that identically). -/
abbrev FileState := Option StoredConfig

/-- The module-level values loaded by boot.py at start (boot.py:47-57 after
boot.py:113-132), re-exported to main.py (main.py:19-20, 37, 45-48, 52-53). -/
structure BootGlobals where
  CALIBRATION_DRY : Int
  CALIBRATION_WET : Int
  MQTT_BROKER : Str
  MQTT_PORT : Int
  MQTT_USER : Str
  MQTT_PASSWORD : Str
  BRIGHTNESS_LEVEL : Int
  DHT_ENABLED : Bool
  TEMP_UNIT_C : Bool
deriving DecidableEq, Repr

/-- boot.py:27-43 compiled-in defaults, as loaded when no config file exists. -/
def bootDefaults : BootGlobals :=
  ⟨8191, 4300, [], 1883, [], [], 50, false, true⟩

/-- The mutable in-memory configuration globals of main.py that
`handle_config_submission` would assign (main.py:446-451). -/
structure MemConfig where
  CALIBRATION_DRY : Int
  CALIBRATION_WET : Int
  BRIGHTNESS_LEVEL : Int
  DHT_ENABLED : Bool
  TEMP_UNIT_C : Bool
deriving DecidableEq, Repr

/-- In-memory globals right after a boot with no config file. -/
def mem0 : MemConfig := ⟨8191, 4300, 50, false, true⟩

/-- main.py:249-256 `load_current_wifi_config`: `config.get` with no default,
so a missing key or missing file yields `None`. -/
def load_current_wifi_config (fs : FileState) : Option Str × Option Str :=
  match fs with
  | none => (none, none)
  | some c => (c.ssid, c.password)

/-- main.py:258-275 `load_current_config_details`: a 7-tuple, falling back per
key to the boot-loaded module globals. -/
def load_current_config_details (g : BootGlobals) (fs : FileState) :
    Str × Int × Str × Str × Int × Bool × Bool :=
  match fs with
  | none =>
    (g.MQTT_BROKER, g.MQTT_PORT, g.MQTT_USER, g.MQTT_PASSWORD,
     g.BRIGHTNESS_LEVEL, g.DHT_ENABLED, g.TEMP_UNIT_C)
  | some c =>
    (c.mqtt_broker.getD g.MQTT_BROKER, c.mqtt_port.getD g.MQTT_PORT,
     c.mqtt_user.getD g.MQTT_USER, c.mqtt_pass.getD g.MQTT_PASSWORD,
     c.brightness.getD g.BRIGHTNESS_LEVEL, c.dht_enabled.getD g.DHT_ENABLED,
     c.temp_unit_c.getD g.TEMP_UNIT_C)

/-- The full record main.py:207-223 assembles before writing. -/
structure SavedRecord where
  ssid : Str
  password : Str
  dry : Int
  wet : Int
  mqtt_broker : Str
  mqtt_port : Int
  mqtt_user : Str
  mqtt_pass : Str
  brightness : Int
  dht_enabled : Bool
  temp_unit_c : Bool
deriving DecidableEq, Repr

/-- The JSON object `json.dump` writes for a `SavedRecord`: every key present. -/
def toStoredConfig (r : SavedRecord) : StoredConfig :=
  ⟨some r.ssid, some r.password, some r.dry, some r.wet, some r.mqtt_broker,
   some r.mqtt_port, some r.mqtt_user, some r.mqtt_pass, some r.brightness,
   some r.dht_enabled, some r.temp_unit_c⟩

/-- Effects of `save_config`: resulting file, whether `machine.reset()` ran,
whether the `FATAL ERROR: Failed to save config` message was printed. -/
structure SaveOutcome where
  fs : FileState
  restarted : Bool
  errorLogged : Bool
deriving DecidableEq, Repr

/-- main.py:207-247 `save_config`: on a successful write-and-sync it prints,
sleeps briefly and unconditionally calls `machine.reset()`; any exception in
the write/sync path is caught, a fatal message is printed, and the function
returns without resetting.  `writeOk` models whether the file I/O succeeds. -/
def save_config (r : SavedRecord) (fs : FileState) (writeOk : Bool) : SaveOutcome :=
  if writeOk then ⟨some (toStoredConfig r), true, false⟩
  else ⟨fs, false, true⟩

/-! ### Query parsing and the submission handler -/

/-- The parameter variables of main.py:368-373, filled by the loop at
main.py:375-393 (last occurrence of a key wins). -/
structure Params where
  ssid : Option Str
  pass : Option Str
  dry : Option Str
  wet : Option Str
  broker : Option Str
  port : Option Str
  user : Option Str
  mqtt_pass : Option Str
  brightness : Option Str
  dht_enabled : Option Str
  temp_unit : Option Str
deriving DecidableEq, Repr

def emptyParams : Params :=
  ⟨none, none, none, none, none, none, none, none, none, none, none⟩

/-- One step of the assignment loop, main.py:375-393. -/
def assignParam (p : Params) (param : Str) : Params :=
  match splitEq1 param with
  | none => p
  | some kv =>
    if kv.1 = ("ssid").toList then { p with ssid := some kv.2 }
    else if kv.1 = ("pass").toList then { p with pass := some kv.2 }
    else if kv.1 = ("dry").toList then { p with dry := some kv.2 }
    else if kv.1 = ("wet").toList then { p with wet := some kv.2 }
    else if kv.1 = ("broker").toList then { p with broker := some kv.2 }
    else if kv.1 = ("port").toList then { p with port := some kv.2 }
    else if kv.1 = ("user").toList then { p with user := some kv.2 }
    else if kv.1 = ("mqtt_pass").toList then { p with mqtt_pass := some kv.2 }
    else if kv.1 = ("brightness").toList then { p with brightness := some kv.2 }
    else if kv.1 = ("dht_enabled").toList then { p with dht_enabled := some kv.2 }
    else if kv.1 = ("temp_unit").toList then { p with temp_unit := some kv.2 }
    else p

/-- main.py:350-357: locate `'?'`, the following `' '`, and slice the query
string out of the request line (`find`/slicing cannot raise, so the
`except` at main.py:360 is unreachable). -/
def extractQuery (request : Str) : Str :=
  let qStart := pyFindFrom '?' request 0
  let qEnd := pyFindFrom ' ' request qStart
  pySlice request (qStart + 1) qEnd

/-- main.py:359 + main.py:375-393: split the query on `'&'` and run the
assignment loop. -/
def parseParams (request : Str) : Params :=
  (splitOnC '&' (extractQuery request)).foldl assignParam emptyParams

/-- main.py:347 and main.py:686: a request is treated as a configuration
submission iff it contains both `'GET /?'` and `'dry='` as substrings. -/
def isSubmission (request : Str) : Bool :=
  containsSub request (("GET /?").toList) && containsSub request (("dry=").toList)

/-- main.py:404-406: percent-decode submitted Wi-Fi credentials, falling back
to the stored values when the submitted field is absent or blank. -/
def wifiFinal (p : Params) (fs : FileState) : Option Str × Option Str :=
  let cur := load_current_wifi_config fs
  (if truthy p.ssid then some (url_decode (p.ssid.getD [])) else cur.1,
   if truthy p.pass then some (url_decode (p.pass.getD [])) else cur.2)

/-- Result and effects of one `handle_config_submission` call:
`result` is the Python return value (`ok`) or the exception that escapes the
function (`error`); `fs`, `mem`, `restarted`, `saveErrorLogged` record the
file, the in-memory globals, whether `machine.reset()` ran and whether
`save_config`'s failure message was printed. -/
structure HandleOutcome where
  result : Except PyErr Bool
  fs : FileState
  mem : MemConfig
  restarted : Bool
  saveErrorLogged : Bool
deriving DecidableEq, Repr

/-- main.py:342-456 `handle_config_submission`.

Faithful control flow: signature check (line 347), query extraction and the
parameter loop (350-393), the calibration check (395-401), the Wi-Fi
fallback and check (403-407).  At line 412 the source unpacks the 7-tuple
returned by `load_current_config_details` into **five** targets
(`current_broker, current_port, current_user, current_mqtt_pass,
current_brightness`), which raises `ValueError: too many values to unpack`;
no surrounding `try` catches it, so every execution reaching that line
leaves the function with the exception and lines 413-455 (MQTT/brightness
validation, flag handling, the global assignments, `save_config`) are dead
code.  `writeOk` is carried for interface uniformity; no path can use it. -/
def handle_config_submission (g : BootGlobals) (mem : MemConfig) (fs : FileState)
    (writeOk : Bool) (request : Str) : HandleOutcome :=
  if isSubmission request then
    if truthy (parseParams request).dry = false ∨ truthy (parseParams request).wet = false then
      ⟨Except.ok false, fs, mem, false, false⟩
    else
      match pyInt ((parseParams request).dry.getD []), pyInt ((parseParams request).wet.getD []) with
      | some _, some _ =>
        if truthy (wifiFinal (parseParams request) fs).1 = false ∨
            truthy (wifiFinal (parseParams request) fs).2 = false then
          ⟨Except.ok false, fs, mem, false, false⟩
        else
          ⟨Except.error PyErr.valueError, fs, mem, false, false⟩
      | _, _ => ⟨Except.ok false, fs, mem, false, false⟩
  else ⟨Except.ok false, fs, mem, false, false⟩

/-- main.py:439 `final_dht_enabled = True if dht_checkbox_val == 'true' else False`
(dead code behind the line-412 unpack, modelled standalone). -/
def final_dht_enabled (v : Option Str) : Bool :=
  if v = some (("true").toList) then true else false

/-- main.py:443 `final_temp_unit_c = True if temp_unit_val == 'C' else False`
(dead code behind the line-412 unpack, modelled standalone). -/
def final_temp_unit_c (v : Option Str) : Bool :=
  if v = some (("C").toList) then true else false

/-- main.py:445-455 (dead code behind the line-412 unpack, modelled
standalone): assign the five in-memory globals, call `save_config`, return
`True` regardless of whether the save succeeded. -/
def handle_submission_tail (r : SavedRecord) (mem : MemConfig) (fs : FileState)
    (writeOk : Bool) : HandleOutcome :=
  let mem' : MemConfig := ⟨r.dry, r.wet, r.brightness, r.dht_enabled, r.temp_unit_c⟩
  let so := save_config r fs writeOk
  ⟨Except.ok true, so.fs, mem', so.restarted, so.errorLogged⟩

/-- The page the dispatcher answers with (main.py:685-708); `noResponse` is
the exception path (main.py:724-739): the connection is closed by the
`finally` block without any page having been sent. -/
inductive PageResponse
  | savedPage
  | errorPage
  | configPage
  | dataPage
  | noResponse
deriving DecidableEq, Repr

structure DispatchOutcome where
  response : PageResponse
  fs : FileState
  mem : MemConfig
  restarted : Bool
deriving DecidableEq, Repr

/-- main.py:685-708, the routing of one accepted request:
submissions (the main.py:686 signature) go to `handle_config_submission` and
are answered with the saved page on `True`, the error-annotated form on
`False`, and nothing at all when the handler raises (the loop-boundary
`except` at main.py:725 only logs and closes); otherwise `/config` or
access-point mode serves the form, and anything else the data page. -/
def dispatch (g : BootGlobals) (apActive : Bool) (mem : MemConfig) (fs : FileState)
    (writeOk : Bool) (request : Str) : DispatchOutcome :=
  if isSubmission request then
    match handle_config_submission g mem fs writeOk request with
    | ⟨Except.ok true, fs', mem', rst, _⟩ => ⟨PageResponse.savedPage, fs', mem', rst⟩
    | ⟨Except.ok false, fs', mem', rst, _⟩ => ⟨PageResponse.errorPage, fs', mem', rst⟩
    | ⟨Except.error _, fs', mem', rst, _⟩ => ⟨PageResponse.noResponse, fs', mem', rst⟩
  else if containsSub request (("GET /config").toList) || apActive then
    ⟨PageResponse.configPage, fs, mem, false⟩
  else ⟨PageResponse.dataPage, fs, mem, false⟩

/-! ### Sensor sampling pipeline -/

/-- Python `round(x, 1)` tie behaviour: round half to even, on 10·x. -/
def pyRoundHalfEven (q : ℚ) : ℤ :=
  if q - Int.floor q < 1/2 then Int.floor q
  else if 1/2 < q - Int.floor q then Int.floor q + 1
  else if Even (Int.floor q) then Int.floor q else Int.floor q + 1

/-- Python `round(x, 1)` over exact rationals. -/
def pyRound1 (q : ℚ) : ℚ := (pyRoundHalfEven (10 * q) : ℚ) / 10

/-- main.py:117-125 conversion arithmetic for a given averaged raw value:
`constrained_value = max(wet, min(dry, raw))`, `range = dry - wet`,
`value = constrained - wet`, `percent = round((range - value)/range*100, 1)`. -/
def moisturePercent (dry wet raw : Int) : ℚ :=
  pyRound1 ((((dry - wet : Int) : ℚ) - ((max wet (min dry raw) - wet : Int) : ℚ)) /
    ((dry - wet : Int) : ℚ) * 100)

/-- main.py:117-125 with the Python division semantics made explicit: the
division at main.py:121 raises `ZeroDivisionError` when
`moisture_range = dry - wet` is zero, otherwise the rounded percentage. -/
def readMoistureConvert (dry wet raw : Int) : Except PyErr ℚ :=
  if dry - wet = 0 then Except.error PyErr.zeroDivisionError
  else Except.ok (moisturePercent dry wet raw)

/-- main.py:101-125 `read_moisture`: with no ADC (init failed) the reading is
forced to the neutral `(0, 0.0)` (main.py:104-107); otherwise ten samples are
summed and floor-divided by 10 (main.py:109-115) and converted.  The result
carries the new `(current_raw_reading, current_moisture_percent)` pair, or
the exception escaping the function. -/
def read_moisture (adc : Option (List Int)) (dry wet : Int) : Except PyErr (Int × ℚ) :=
  match adc with
  | none => Except.ok (0, 0)
  | some samples =>
    match readMoistureConvert dry wet (Int.fdiv samples.sum 10) with
    | Except.ok pct => Except.ok (Int.fdiv samples.sum 10, pct)
    | Except.error e => Except.error e

/-! ### The dispatcher loop's sampling tick -/

/-- Observable actions of one loop iteration of `run_project`:
a 10-sample ADC read (`sampleEv`), a NeoPixel update (`indicatorEv`), a DHT
read attempt (`dhtEv`), an MQTT publish attempt (`publishEv`), an MQTT broker
connection attempt (`connectEv`). -/
inductive LoopEvent
  | sampleEv
  | indicatorEv
  | dhtEv
  | publishEv
  | connectEv
deriving DecidableEq, Repr

/-- Events of one successful `read_moisture()` call: the sampling loop, then
`set_neopixel_color` (main.py:111-127).  When the ADC failed to initialise
the function returns at main.py:107 before either. -/
def readMoistureEvents (adcOk : Bool) : List LoopEvent :=
  if adcOk then [LoopEvent.sampleEv, LoopEvent.indicatorEv] else []

/-- Events of the sensor block of one elapsed sampling interval
(main.py:651-673): `read_moisture()` at main.py:652, `read_moisture()` again
at main.py:655 inside the `try`, `read_dht()` at main.py:656, and one
`mqtt_publish` at main.py:673 iff `mqtt_client` is truthy (main.py:659). -/
def tickEvents (adcOk mq : Bool) : List LoopEvent :=
  readMoistureEvents adcOk ++ readMoistureEvents adcOk ++ [LoopEvent.dhtEv] ++
    (if mq then [LoopEvent.publishEv] else [])

/-- The loop-carried sensor state: `current_raw_reading`,
`current_moisture_percent` (main.py:13-14) and whether `mqtt_client` holds a
connection. -/
structure RunState where
  raw : Int
  percent : ℚ
  mq : Bool
deriving DecidableEq, Repr

/-- One iteration of the `while True` dispatcher loop restricted to its sensor
block (main.py:649-678): the block runs only when the device is not in
access-point configuration mode AND the sampling interval has elapsed
(main.py:651).  On a conversion error the first `read_moisture()` call at
main.py:652 sits outside the `try`, so the exception escapes the loop: the
state is left unmodified and only the sampling happened.  Request handling
(main.py:681-708) never touches this state. -/
def loopStep (isConfigMode elapsed adcOk : Bool) (samples : List Int) (dry wet : Int)
    (s : RunState) : RunState × List LoopEvent :=
  if !isConfigMode && elapsed then
    match read_moisture (if adcOk then some samples else none) dry wet with
    | Except.ok rp => (⟨rp.1, rp.2, s.mq⟩, tickEvents adcOk s.mq)
    | Except.error _ => (s, [LoopEvent.sampleEv])
  else (s, [])

/-- The dispatcher loop run over a schedule of interval-elapsed flags. -/
def runLoop (isConfigMode adcOk : Bool) (samples : List Int) (dry wet : Int) :
    List Bool → RunState → RunState × List LoopEvent
  | [], s => (s, [])
  | t :: ts, s =>
    let r1 := loopStep isConfigMode t adcOk samples dry wet s
    let r2 := runLoop isConfigMode adcOk samples dry wet ts r1.1
    (r2.1, r1.2 ++ r2.2)

/-- main.py:619-678 `run_project`: `is_config_mode` is read once from the AP
interface (main.py:625); `mqtt_connect()` is attempted at startup only when
not in config mode (main.py:628-629), and only actually contacts the broker
when one is configured (main.py:293-295); the sensor state starts at the
neutral `(0, 0.0)` (main.py:13-14); then the loop runs. -/
def run_project_model (isConfigMode brokerSet connectOk adcOk : Bool)
    (samples : List Int) (dry wet : Int) (ticks : List Bool) :
    RunState × List LoopEvent :=
  let startEvents : List LoopEvent :=
    if !isConfigMode && brokerSet then [LoopEvent.connectEv] else []
  let s0 : RunState := ⟨0, 0, !isConfigMode && brokerSet && connectOk⟩
  let r := runLoop isConfigMode adcOk samples dry wet ticks s0
  (r.1, startEvents ++ r.2)

/-! ### Concrete scenario inputs -/

/-- The spec's concrete full submission, with no prior config file. -/
def reqFull : Str :=
  ("GET /?ssid=MyWifi&pass=Secret&dry=8000&wet=4000&brightness=100&temp_unit=C HTTP/1.1").toList

/-- The spec's partial submission: blank credentials, calibration and
brightness supplied. -/
def reqBlankWifi : Str :=
  ("GET /?ssid=&pass=&dry=8000&wet=4000&brightness=100&temp_unit=C HTTP/1.1").toList

/-- A submission-shaped query that omits the `dry` parameter entirely. -/
def reqNoDry : Str :=
  ("GET /?wet=4000&brightness=100&ssid=A&pass=B&temp_unit=C HTTP/1.1").toList

/-- A submission whose `dry` parameter is present but empty. -/
def reqEmptyDry : Str := ("GET /?dry=&wet=4000 HTTP/1.1").toList

/-- A plain page request. -/
def reqPlain : Str := ("GET / HTTP/1.1").toList

/-- The spec's prior stored record `{ssid: "Old", password: "Pwd"}`. -/
def cfgOld : StoredConfig :=
  ⟨some (("Old").toList), some (("Pwd").toList), none, none, none, none, none,
   none, none, none, none⟩

/-- The record the spec expects the full submission to persist. -/
def recFull : SavedRecord :=
  ⟨("MyWifi").toList, ("Secret").toList, 8000, 4000, [], 1883, [], [], 100,
   false, true⟩

/-! ### Rounding lemmas -/

lemma floor_le_pyRoundHalfEven (q : ℚ) : Int.floor q ≤ pyRoundHalfEven q := by
  unfold pyRoundHalfEven
  split_ifs <;> omega

lemma pyRoundHalfEven_le_floor_succ (q : ℚ) : pyRoundHalfEven q ≤ Int.floor q + 1 := by
  unfold pyRoundHalfEven
  split_ifs <;> omega

lemma pyRoundHalfEven_mono {x y : ℚ} (h : x ≤ y) :
    pyRoundHalfEven x ≤ pyRoundHalfEven y := by
  rcases lt_or_eq_of_le (Int.floor_mono h) with hlt | heq
  · calc pyRoundHalfEven x ≤ Int.floor x + 1 := pyRoundHalfEven_le_floor_succ x
      _ ≤ Int.floor y := by omega
      _ ≤ pyRoundHalfEven y := floor_le_pyRoundHalfEven y
  · unfold pyRoundHalfEven
    rw [heq]
    split_ifs <;> first | omega | (exfalso; linarith)

lemma pyRound1_eq_of (q : ℚ) (n : ℤ) (h1 : (n:ℚ) ≤ 10*q) (h2 : 10*q - n < 1/2) :
    pyRound1 q = (n:ℚ)/10 := by
  have hf : Int.floor (10*q) = n := by
    rw [Int.floor_eq_iff]
    exact ⟨h1, by linarith⟩
  unfold pyRound1 pyRoundHalfEven
  rw [hf, if_pos (by linarith : 10*q - (n:ℚ) < 1/2)]

lemma pyRound1_mono {x y : ℚ} (h : x ≤ y) : pyRound1 x ≤ pyRound1 y := by
  unfold pyRound1
  have h10 : (10:ℚ)*x ≤ 10*y := by linarith
  have hc : ((pyRoundHalfEven (10*x) : ℚ)) ≤ ((pyRoundHalfEven (10*y) : ℚ)) := by
    exact_mod_cast pyRoundHalfEven_mono h10
  linarith

lemma pyRound1_bounds {q : ℚ} (h0 : 0 ≤ q) (h1 : q ≤ 100) :
    0 ≤ pyRound1 q ∧ pyRound1 q ≤ 100 := by
  have e0 : pyRound1 0 = 0 := by
    rw [pyRound1_eq_of 0 0 (by norm_num) (by norm_num)]
    norm_num
  have e1 : pyRound1 100 = 100 := by
    rw [pyRound1_eq_of 100 1000 (by norm_num) (by norm_num)]
    norm_num
  constructor
  · have hm := pyRound1_mono h0
    rw [e0] at hm
    exact hm
  · have hm := pyRound1_mono h1
    rw [e1] at hm
    exact hm

/-! ### Concrete conversion values at the compiled-in calibration -/

lemma moisturePercent_mid : moisturePercent 8191 4300 6245 = 50 := by
  unfold moisturePercent
  rw [show ((4300:Int) ⊔ ((8191:Int) ⊓ 6245)) = 6245 by decide]
  rw [pyRound1_eq_of _ 500 (by norm_num) (by norm_num)]
  norm_num

lemma moisturePercent_at_dry : moisturePercent 8191 4300 8191 = 0 := by
  unfold moisturePercent
  rw [show ((4300:Int) ⊔ ((8191:Int) ⊓ 8191)) = 8191 by decide]
  rw [pyRound1_eq_of _ 0 (by norm_num) (by norm_num)]
  norm_num

lemma moisturePercent_at_wet : moisturePercent 8191 4300 4300 = 100 := by
  unfold moisturePercent
  rw [show ((4300:Int) ⊔ ((8191:Int) ⊓ 4300)) = 4300 by decide]
  rw [pyRound1_eq_of _ 1000 (by norm_num) (by norm_num)]
  norm_num

/-! ### Event-trace lemmas for the sampling tick -/

lemma tickEvents_props : ∀ a m : Bool,
    ((tickEvents a m).count LoopEvent.publishEv ≤ 1) ∧
    ((tickEvents a m).count LoopEvent.sampleEv = if a then 2 else 0) ∧
    ((tickEvents a m).count LoopEvent.indicatorEv = if a then 2 else 0) ∧
    (m = true → (tickEvents a m).getLast? = some LoopEvent.publishEv) ∧
    (a = true → (tickEvents a m).take 4 =
      [LoopEvent.sampleEv, LoopEvent.indicatorEv, LoopEvent.sampleEv, LoopEvent.indicatorEv]) := by
  decide

lemma runLoop_config_inert (adcOk : Bool) (samples : List Int) (dry wet : Int) :
    ∀ (ticks : List Bool) (s : RunState),
      runLoop true adcOk samples dry wet ticks s = (s, []) := by
  intro ticks
  induction ticks with
  | nil => intro s; rfl
  | cons t ts ih =>
    intro s
    simp [runLoop, loopStep, ih]

/-! ### Claim theorems -/

/-- C1: the spec's full submission
`ssid=MyWifi&pass=Secret&dry=8000&wet=4000&brightness=100&temp_unit=C` with no
prior config file does NOT validate, persist, or restart: the handler passes
the calibration and Wi-Fi checks and then raises `ValueError` at main.py:412,
where the 7-tuple returned by `load_current_config_details` is unpacked into
five variables.  Nothing is written, the in-memory globals keep their boot
values, no restart happens, and the dispatcher sends no page at all. -/
theorem c1_full_submission_crashes_no_save :
    handle_config_submission bootDefaults mem0 none true reqFull =
      ⟨Except.error PyErr.valueError, none, mem0, false, false⟩ ∧
    (dispatch bootDefaults false mem0 none true reqFull).fs = none ∧
    (dispatch bootDefaults false mem0 none true reqFull).restarted = false ∧
    (dispatch bootDefaults false mem0 none true reqFull).response = PageResponse.noResponse := by
  decide

/-- C2: with calibration `dry = wet = 5000` and ten samples averaging 5000,
`read_moisture` raises `ZeroDivisionError` at the main.py:121 division instead
of producing a fallback percentage. -/
theorem c2_equal_calibration_divides_by_zero :
    read_moisture (some (List.replicate 10 5000)) 5000 5000 =
      Except.error PyErr.zeroDivisionError ∧
    readMoistureConvert 5000 5000 5000 = Except.error PyErr.zeroDivisionError := by
  decide

/-- C3: the write-failure path of `save_config` is unreachable from a
submission: even with a failing filesystem the handler dies at the
main.py:412 unpack before `save_config` is called, so `save_config`'s
failure message is never printed from this path (first conjunct:
`saveErrorLogged = false`).  In isolation `save_config` does log and skip
the restart on a failed write (second conjunct).  Had control reached the
dead tail (main.py:445-455), the in-memory globals would already have been
overwritten with the new values before the failing save (third and fourth
conjuncts), contradicting the claim that memory stays as before. -/
theorem c3_save_failure_path_unreachable :
    handle_config_submission bootDefaults mem0 (some cfgOld) false reqFull =
      ⟨Except.error PyErr.valueError, some cfgOld, mem0, false, false⟩ ∧
    save_config recFull (some cfgOld) false = ⟨some cfgOld, false, true⟩ ∧
    (handle_submission_tail recFull mem0 (some cfgOld) false).mem ≠ mem0 ∧
    (handle_submission_tail recFull mem0 (some cfgOld) false).restarted = false := by
  decide

/-- C4 counterexample: in an elapsed sampling tick with a working ADC and a
connected broker the sensor is sampled twice (main.py:652 and main.py:655),
refuting "at most one sensor sample per elapsed interval". -/
theorem c4_two_samples_per_tick :
    ((loopStep false true true (List.replicate 10 6000) 8191 4300 ⟨0, 0, true⟩).2.count
      LoopEvent.sampleEv = 2) ∧
    ¬((loopStep false true true (List.replicate 10 6000) 8191 4300 ⟨0, 0, true⟩).2.count
      LoopEvent.sampleEv ≤ 1) := by
  decide

/-- C4 amended: in every elapsed non-config sampling tick (with valid
calibration) at most one publish attempt occurs and it is the last event of
the tick, hence strictly after all sampling and indicator events; the sensor
is sampled exactly twice (not at most once; zero times when the ADC failed to
init) and the indicator is likewise updated exactly twice; the four sampling
and indicator events open the tick as
`sample, indicator, sample, indicator`, so each of the two samplings is
immediately followed by its own indicator update (by the exact counts, no
sampling or indicator event occurs outside that prefix). -/
theorem c4_tick_event_order (dry wet : Int) (h : wet < dry) (adcOk : Bool)
    (samples : List Int) (s : RunState) :
    ((loopStep false true adcOk samples dry wet s).2.count LoopEvent.publishEv ≤ 1) ∧
    ((loopStep false true adcOk samples dry wet s).2.count LoopEvent.sampleEv =
      if adcOk then 2 else 0) ∧
    ((loopStep false true adcOk samples dry wet s).2.count LoopEvent.indicatorEv =
      if adcOk then 2 else 0) ∧
    (s.mq = true → (loopStep false true adcOk samples dry wet s).2.getLast? =
      some LoopEvent.publishEv) ∧
    (adcOk = true → (loopStep false true adcOk samples dry wet s).2.take 4 =
      [LoopEvent.sampleEv, LoopEvent.indicatorEv, LoopEvent.sampleEv,
       LoopEvent.indicatorEv]) := by
  have hevs : (loopStep false true adcOk samples dry wet s).2 = tickEvents adcOk s.mq := by
    cases adcOk
    · simp [loopStep, read_moisture]
    · have hconv : readMoistureConvert dry wet (Int.fdiv samples.sum 10) =
          Except.ok (moisturePercent dry wet (Int.fdiv samples.sum 10)) := by
        unfold readMoistureConvert
        rw [if_neg (by omega : ¬(dry - wet = 0))]
      simp [loopStep, read_moisture, hconv]
  refine ⟨?_, ?_, ?_, ?_, ?_⟩ <;> rw [hevs]
  · exact (tickEvents_props adcOk s.mq).1
  · exact (tickEvents_props adcOk s.mq).2.1
  · exact (tickEvents_props adcOk s.mq).2.2.1
  · exact (tickEvents_props adcOk s.mq).2.2.2.1
  · exact (tickEvents_props adcOk s.mq).2.2.2.2

/-- C4 witness: the amended tick-order theorem applied at the default
calibration, a working ADC and a connected broker. -/
theorem c4_tick_event_order_witness :
    ((loopStep false true true (List.replicate 10 6000) 8191 4300 ⟨0, 0, true⟩).2.count
      LoopEvent.publishEv ≤ 1) ∧
    ((loopStep false true true (List.replicate 10 6000) 8191 4300 ⟨0, 0, true⟩).2.count
      LoopEvent.indicatorEv = 2) ∧
    ((loopStep false true true (List.replicate 10 6000) 8191 4300 ⟨0, 0, true⟩).2.getLast? =
      some LoopEvent.publishEv) ∧
    ((loopStep false true true (List.replicate 10 6000) 8191 4300 ⟨0, 0, true⟩).2.take 4 =
      [LoopEvent.sampleEv, LoopEvent.indicatorEv, LoopEvent.sampleEv,
       LoopEvent.indicatorEv]) :=
  ⟨(c4_tick_event_order 8191 4300 (by norm_num) true (List.replicate 10 6000) ⟨0, 0, true⟩).1,
   (c4_tick_event_order 8191 4300 (by norm_num) true (List.replicate 10 6000) ⟨0, 0, true⟩).2.2.1,
   (c4_tick_event_order 8191 4300 (by norm_num) true (List.replicate 10 6000) ⟨0, 0, true⟩).2.2.2.1 rfl,
   (c4_tick_event_order 8191 4300 (by norm_num) true (List.replicate 10 6000) ⟨0, 0, true⟩).2.2.2.2 rfl⟩

/-- C5: for the blank-credential submission with a stored record
`{ssid: Old, password: Pwd}`, the Wi-Fi fallback of main.py:404-406 does
recover the stored credentials (first conjunct) and an all-blank pair is
rejected when nothing is stored (third conjunct), but with stored
credentials the handler then raises `ValueError` at the main.py:412 unpack,
so no resulting record preserves anything: the file is untouched and no
restart occurs (second conjunct). -/
theorem c5_blank_credentials_fallback_then_crash :
    wifiFinal (parseParams reqBlankWifi) (some cfgOld) =
      (some (("Old").toList), some (("Pwd").toList)) ∧
    handle_config_submission bootDefaults mem0 (some cfgOld) true reqBlankWifi =
      ⟨Except.error PyErr.valueError, some cfgOld, mem0, false, false⟩ ∧
    handle_config_submission bootDefaults mem0 none true reqBlankWifi =
      ⟨Except.ok false, none, mem0, false, false⟩ := by
  decide

/-- C6 counterexample: a query that omits the `dry` parameter entirely is not
routed as a submission at all (the main.py:686 signature requires the
substring `dry=`): in station mode it is answered with the data page, not
with the error-annotated configuration form. -/
theorem c6_missing_dry_not_error_form :
    (dispatch bootDefaults false mem0 none true reqNoDry).response = PageResponse.dataPage ∧
    (dispatch bootDefaults false mem0 none true reqNoDry).response ≠ PageResponse.errorPage := by
  decide

/-- C6 amended: a request routed as a submission whose `dry` or `wet` value is
missing, empty, or not parseable as an integer is answered with the
error-annotated configuration form with no file write, no in-memory change
and no restart; a request whose query lacks `dry=` altogether is not treated
as a submission and is answered with the ordinary configuration or data
page, likewise with no state change. -/
theorem c6_calibration_rejection :
    (∀ (g : BootGlobals) (mem : MemConfig) (fs : FileState) (w : Bool) (r : Str),
      isSubmission r = true →
      (truthy (parseParams r).dry = false ∨ truthy (parseParams r).wet = false ∨
        pyInt ((parseParams r).dry.getD []) = none ∨ pyInt ((parseParams r).wet.getD []) = none) →
      dispatch g false mem fs w r = ⟨PageResponse.errorPage, fs, mem, false⟩) ∧
    (∀ (g : BootGlobals) (ap : Bool) (mem : MemConfig) (fs : FileState) (w : Bool) (r : Str),
      isSubmission r = false →
      ((dispatch g ap mem fs w r).response = PageResponse.configPage ∨
        (dispatch g ap mem fs w r).response = PageResponse.dataPage) ∧
      (dispatch g ap mem fs w r).fs = fs ∧ (dispatch g ap mem fs w r).mem = mem ∧
      (dispatch g ap mem fs w r).restarted = false) := by
  constructor
  · intro g mem fs w r hsub hrej
    have hh : handle_config_submission g mem fs w r = ⟨Except.ok false, fs, mem, false, false⟩ := by
      unfold handle_config_submission
      rw [hsub]
      simp only [if_true]
      by_cases hguard : truthy (parseParams r).dry = false ∨ truthy (parseParams r).wet = false
      · rw [if_pos hguard]
      · rw [if_neg hguard]
        push_neg at hguard
        rcases hrej with h1 | h2 | h3 | h4
        · exact absurd h1 hguard.1
        · exact absurd h2 hguard.2
        · rw [h3]
        · rcases hd : pyInt ((parseParams r).dry.getD []) with _ | dv
          · rfl
          · rw [h4]
    unfold dispatch
    rw [hsub]
    simp only [if_true]
    rw [hh]
  · intro g ap mem fs w r hsub
    unfold dispatch
    rw [hsub]
    simp only [Bool.false_eq_true, if_false]
    by_cases hc : (containsSub r (("GET /config").toList) || ap) = true
    · rw [if_pos hc]
      exact ⟨Or.inl rfl, rfl, rfl, rfl⟩
    · rw [if_neg hc]
      exact ⟨Or.inr rfl, rfl, rfl, rfl⟩

/-- C6 witness: the rejection theorem applied to a submission with an empty
`dry` value, and the non-submission branch applied to a plain page request. -/
theorem c6_calibration_rejection_witness :
    dispatch bootDefaults false mem0 none true reqEmptyDry =
      ⟨PageResponse.errorPage, none, mem0, false⟩ ∧
    ((dispatch bootDefaults false mem0 none true reqPlain).response = PageResponse.configPage ∨
      (dispatch bootDefaults false mem0 none true reqPlain).response = PageResponse.dataPage) :=
  ⟨c6_calibration_rejection.1 bootDefaults mem0 none true reqEmptyDry (by decide)
      (Or.inl (by decide)),
   (c6_calibration_rejection.2 bootDefaults false mem0 none true reqPlain (by decide)).1⟩

/-- C7: under `wet < dry` the conversion of main.py:117-125 yields a percent
in [0, 100] for every raw value (out-of-range values are clamped), the
percent is monotonically non-increasing in the raw value, and the conversion
never raises. -/
theorem c7_percent_monotone_bounded (dry wet : Int) (h : wet < dry) :
    (∀ raw : Int, 0 ≤ moisturePercent dry wet raw ∧ moisturePercent dry wet raw ≤ 100) ∧
    (∀ r1 r2 : Int, r1 ≤ r2 → moisturePercent dry wet r2 ≤ moisturePercent dry wet r1) ∧
    (∀ raw : Int, readMoistureConvert dry wet raw = Except.ok (moisturePercent dry wet raw)) := by
  have hq : (0:ℚ) < ((dry - wet : Int) : ℚ) := by exact_mod_cast sub_pos.mpr h
  refine ⟨?_, ?_, ?_⟩
  · intro raw
    unfold moisturePercent
    set c : Int := max wet (min dry raw) with hcdef
    have h1 : wet ≤ c := le_max_left _ _
    have h2 : c ≤ dry := max_le h.le (min_le_left _ _)
    have hc1 : ((wet : Int) : ℚ) ≤ ((c : Int) : ℚ) := by exact_mod_cast h1
    have hc2 : ((c : Int) : ℚ) ≤ ((dry : Int) : ℚ) := by exact_mod_cast h2
    have hN0 : (0:ℚ) ≤ ((dry - wet : Int) : ℚ) - ((c - wet : Int) : ℚ) := by
      push_cast
      linarith
    have hND : ((dry - wet : Int) : ℚ) - ((c - wet : Int) : ℚ) ≤ ((dry - wet : Int) : ℚ) := by
      push_cast
      linarith
    refine pyRound1_bounds ?_ ?_
    · exact mul_nonneg (div_nonneg hN0 hq.le) (by norm_num)
    · have hd1 : (((dry - wet : Int) : ℚ) - ((c - wet : Int) : ℚ)) /
          ((dry - wet : Int) : ℚ) ≤ 1 := (div_le_one hq).mpr hND
      linarith
  · intro r1 r2 h12
    unfold moisturePercent
    apply pyRound1_mono
    set c1 : Int := max wet (min dry r1) with hc1def
    set c2 : Int := max wet (min dry r2) with hc2def
    have hc : c1 ≤ c2 := max_le_max le_rfl (min_le_min le_rfl h12)
    have hc' : ((c1 : Int) : ℚ) ≤ ((c2 : Int) : ℚ) := by exact_mod_cast hc
    have hnum : ((dry - wet : Int) : ℚ) - ((c2 - wet : Int) : ℚ) ≤
        ((dry - wet : Int) : ℚ) - ((c1 - wet : Int) : ℚ) := by
      push_cast
      linarith
    have hdd := (div_le_div_iff_of_pos_right hq).mpr hnum
    linarith
  · intro raw
    unfold readMoistureConvert
    rw [if_neg (by omega : ¬(dry - wet = 0))]

/-- C7 witness: the theorem applied at the compiled-in calibration
`dry = 8191 > wet = 4300` and concrete raw values. -/
theorem c7_percent_monotone_bounded_witness :
    (4300 : Int) < 8191 ∧
    (0 ≤ moisturePercent 8191 4300 6245 ∧ moisturePercent 8191 4300 6245 ≤ 100) ∧
    moisturePercent 8191 4300 7000 ≤ moisturePercent 8191 4300 6000 ∧
    readMoistureConvert 8191 4300 6245 = Except.ok (moisturePercent 8191 4300 6245) :=
  ⟨by norm_num,
   (c7_percent_monotone_bounded 8191 4300 (by norm_num)).1 6245,
   (c7_percent_monotone_bounded 8191 4300 (by norm_num)).2.1 6000 7000 (by norm_num),
   (c7_percent_monotone_bounded 8191 4300 (by norm_num)).2.2 6245⟩

/-- C8 counterexample: at the compiled-in calibration `dry=8191, wet=4300` the
raw value 6245 converts to exactly 50.0 percent, which is not approximately
50.8 (it is 0.8 away). -/
theorem c8_midpoint_is_50_not_50_8 :
    moisturePercent 8191 4300 6245 = 50 ∧
    ¬(|moisturePercent 8191 4300 6245 - 50.8| < 1/2) := by
  constructor
  · exact moisturePercent_mid
  · rw [moisturePercent_mid]
    rw [show |(50:ℚ) - 50.8| = 4/5 by norm_num [abs_of_nonpos]]
    norm_num

/-- C8 amended: with `dry=8191, wet=4300` the conversion yields 0.0 at
`raw = dry`, 100.0 at `raw = wet`, and 50.0 (not ≈ 50.8) at `raw = 6245`. -/
theorem c8_endpoint_values :
    readMoistureConvert 8191 4300 8191 = Except.ok 0 ∧
    readMoistureConvert 8191 4300 4300 = Except.ok 100 ∧
    readMoistureConvert 8191 4300 6245 = Except.ok 50 := by
  refine ⟨?_, ?_, ?_⟩ <;> unfold readMoistureConvert <;>
    rw [if_neg (by norm_num : ¬((8191:Int) - 4300 = 0))]
  · rw [moisturePercent_at_dry]
  · rw [moisturePercent_at_wet]
  · rw [moisturePercent_mid]

/-- C9 counterexample: with the `temp_unit` parameter absent, main.py:443
computes `temp_unit_c = False` (Fahrenheit), not the claimed Celsius
default. -/
theorem c9_absent_temp_unit_is_fahrenheit :
    final_temp_unit_c none = false ∧ final_temp_unit_c none ≠ true := by
  decide

/-- C9 amended: the two feature flags are computed from the fixed literal
tokens only — `dht_enabled` is true exactly on the token `true` and
`temp_unit_c` is true exactly on the token `C` — and an absent parameter
yields `false` for both, i.e. DHT disabled but Fahrenheit, not Celsius. -/
theorem c9_flag_tokens :
    (∀ v : Option Str, final_dht_enabled v = true ↔ v = some (("true").toList)) ∧
    (∀ v : Option Str, final_temp_unit_c v = true ↔ v = some (("C").toList)) ∧
    final_dht_enabled none = false ∧ final_temp_unit_c none = false := by
  refine ⟨fun v => ?_, fun v => ?_, rfl, rfl⟩
  · by_cases h : v = some (("true").toList) <;> simp [final_dht_enabled, h]
  · by_cases h : v = some (("C").toList) <;> simp [final_temp_unit_c, h]

/-- C9 witness: the token characterisations instantiated at the literal
tokens and at the absent parameter. -/
theorem c9_flag_tokens_witness :
    final_dht_enabled (some (("true").toList)) = true ∧
    final_temp_unit_c (some (("C").toList)) = true ∧
    final_temp_unit_c none = false :=
  ⟨(c9_flag_tokens.1 (some (("true").toList))).mpr rfl,
   (c9_flag_tokens.2.1 (some (("C").toList))).mpr rfl,
   c9_flag_tokens.2.2.2⟩

/-- C10: when the device starts in access-point configuration mode, for every
schedule of elapsed intervals the process emits no startup broker-connection
event and the loop emits no sampling, indicator, DHT or publish event at all,
and the current reading stays at the neutral `(raw 0, percent 0.0)`. -/
theorem c10_config_mode_loop_inert :
    ∀ (brokerSet connectOk adcOk : Bool) (samples : List Int) (dry wet : Int)
      (ticks : List Bool),
      (run_project_model true brokerSet connectOk adcOk samples dry wet ticks).2 = [] ∧
      (run_project_model true brokerSet connectOk adcOk samples dry wet ticks).1.raw = 0 ∧
      (run_project_model true brokerSet connectOk adcOk samples dry wet ticks).1.percent = 0 := by
  intro brokerSet connectOk adcOk samples dry wet ticks
  simp [run_project_model, runLoop_config_inert]

/-- C10 witness: the access-point inertness theorem at a concrete broker
configuration, sample list and three-iteration schedule. -/
theorem c10_config_mode_loop_inert_witness :
    (run_project_model true true true true (List.replicate 10 6000) 8191 4300
      [true, false, true]).2 = [] ∧
    (run_project_model true true true true (List.replicate 10 6000) 8191 4300
      [true, false, true]).1.raw = 0 :=
  ⟨(c10_config_mode_loop_inert true true true (List.replicate 10 6000) 8191 4300
      [true, false, true]).1,
   (c10_config_mode_loop_inert true true true (List.replicate 10 6000) 8191 4300
      [true, false, true]).2.1⟩
